import Mathlib

/-!
Shallow embedding of the multi-chain EVM wallet plugin
(`packages/plugin-evm/src`): chain registry, wallet session with a mutable
current chain, and the transfer / swap / bridge operations.  Network effects
(RPC balance queries, gas estimation, signing, broadcasting, aggregator route
discovery and execution) are supplied by explicit environment records, and
each operation additionally returns the ordered list of observable events it
performed, so that ordering properties ("before any route request", "no
signing occurs") can be stated.
-/

namespace EvmPlugin

/-- Per-chain metadata, as in `DEFAULT_CHAIN_CONFIGS`
(`providers/wallet.ts`): chain id, display name, RPC endpoint, native
currency decimals and block-explorer URL.  The viem `chain` descriptor
object is represented by the numeric chain id it carries. -/
structure ChainMetadata where
  chainId : Nat
  name : String
  rpcUrl : String
  currencyName : String
  currencySymbol : String
  decimals : Nat
  blockExplorerUrl : String
  deriving Repr, DecidableEq

/-- The chain registry: an ordered association of chain identifier to
metadata, mirroring the `Record<SupportedChain, ChainMetadata>` object
(object property order matters for `Object.entries(...).find` in the
aggregator's chain-switch callback). -/
def ChainRegistry := List (String × ChainMetadata)

/-- Property access `registry[name]`. -/
def ChainRegistry.resolve (r : ChainRegistry) (chain : String) :
    Option ChainMetadata :=
  (List.lookup chain r)

/-- Lookup `Object.entries(registry).find(([_, c]) => c.chainId === id)?.[0]`:
the first-listed chain name whose metadata carries the given numeric id. -/
def ChainRegistry.nameOfChainId (r : ChainRegistry) (cid : Nat) :
    Option String :=
  ((List.find? (fun p => p.2.chainId == cid) r)).map (·.1)

/-- The built-in `DEFAULT_CHAIN_CONFIGS` table (`providers/wallet.ts`,
lines 18-55). -/
def DEFAULT_CHAIN_CONFIGS : ChainRegistry :=
  [ ("ethereum",
      { chainId := 1, name := "Ethereum",
        rpcUrl := "https://eth.llamarpc.com",
        currencyName := "Ether", currencySymbol := "ETH", decimals := 18,
        blockExplorerUrl := "https://etherscan.io" }),
    ("base",
      { chainId := 8453, name := "Base",
        rpcUrl := "https://base.llamarpc.com",
        currencyName := "Ether", currencySymbol := "ETH", decimals := 18,
        blockExplorerUrl := "https://basescan.org" }),
    ("sepolia",
      { chainId := 11155111, name := "Sepolia",
        rpcUrl := "https://rpc.sepolia.org",
        currencyName := "Sepolia Ether", currencySymbol := "ETH",
        decimals := 18,
        blockExplorerUrl := "https://sepolia.etherscan.io" }) ]

/-- One chain's client pair as built by `createClients` in the
`WalletProvider` constructor: a read-only public client and a wallet
(signing) client bound to the session account.  Clients are opaque
handles, represented by numeric identifiers. -/
structure ClientBinding where
  publicClient : Nat
  walletClient : Nat
  deriving Repr, DecidableEq

/-- The `WalletProvider` session state: the account address, the mutable
`currentChain` pointer, and the per-chain client bindings built once in the
constructor (`chainConfigs`). -/
structure WalletState where
  address : String
  currentChain : String
  bindings : String → Option ClientBinding

/-- The constructor's client table: clients are created exactly for the
three hard-coded keys `ethereum`, `base`, `sepolia`
(`providers/wallet.ts`, lines 97-101), from the registry's metadata.
Handles are derived injectively from the chain id so distinct chains get
distinct clients. -/
def mkBindings (r : ChainRegistry) : String → Option ClientBinding :=
  fun c =>
    if c = "ethereum" ∨ c = "base" ∨ c = "sepolia" then
      (r.resolve c).map (fun m => ⟨2 * m.chainId, 2 * m.chainId + 1⟩)
    else none

/-- Constructor `new WalletProvider(runtime)`: derives the address, builds the client
table, and initialises `currentChain` to `"ethereum"` (the field
initialiser at `providers/wallet.ts` line 66). -/
def initWallet (r : ChainRegistry) (address : String) : WalletState :=
  { address := address, currentChain := "ethereum", bindings := mkBindings r }

/-- Method `WalletProvider.switchChain(runtime, chain)`
(`providers/wallet.ts`, lines 126-131): the body is the single assignment
`this.currentChain = chain`.  There is no registry check and no failure
path; the function is total. -/
def switchChain (s : WalletState) (chain : String) : WalletState :=
  { s with currentChain := chain }

/-- Method `WalletProvider.getPublicClient(chain)`: `chainConfigs[chain].publicClient`;
`none` models the `undefined` property access for an unregistered chain. -/
def getPublicClient (s : WalletState) (chain : String) : Option Nat :=
  (s.bindings chain).map (·.publicClient)

/-- Method `WalletProvider.getWalletClient()` (`providers/wallet.ts`, lines
139-143): reads `chainConfigs[currentChain].walletClient` and throws
`"Wallet not connected"` when no client is bound (the `undefined` property
access for an unregistered current chain is likewise an error). -/
def getWalletClient (s : WalletState) : Except String Nat :=
  match s.bindings s.currentChain with
  | some b => .ok b.walletClient
  | none => .error "Wallet not connected"

/-- Accessor `WalletProvider.getCurrentChain()`. -/
def getCurrentChain (s : WalletState) : String := s.currentChain

/-- Method `WalletProvider.getWalletBalance()` (`providers/wallet.ts`, lines
108-120): inside a `try`, obtain the public client for `currentChain` and
the wallet client, then query the RPC balance; any failure is caught and
`null` is returned.  `rpc` is the network oracle giving, per chain, the
RPC outcome of `getBalance`. -/
def getWalletBalance (s : WalletState)
    (rpc : String → Except String Nat) : Option Nat :=
  match getPublicClient s s.currentChain, getWalletClient s with
  | some _, .ok _ =>
      match rpc s.currentChain with
      | .ok b => some b
      | .error _ => none
  | _, _ => none

/-! ### Decimal amount strings and `parseEther`

`parseEther` is viem's exact decimal-string → wei conversion (an external
collaborator of the repository).  Modelled for non-negative plain decimal
strings `"<digits>"` or `"<digits>.<digits>"`; fractions longer than 18
digits after trailing-zero trimming (where viem rounds) are out of the
representable range and yield `none`. -/

/-- Splits a plain decimal string into integer and fraction digit lists;
`none` if the string is not of the form `digits` or `digits.digits`
(requiring every non-dot character to be a digit also rules out a second
dot, as `String.split` into three or more parts would). -/
def decParts (s : String) : Option (List Char × List Char) :=
  let i := s.data.takeWhile (· ≠ '.')
  match s.data.dropWhile (· ≠ '.') with
  | [] => if i ≠ [] ∧ i.all Char.isDigit then some (i, []) else none
  | _ :: f =>
      if i ≠ [] ∧ f ≠ [] ∧ i.all Char.isDigit ∧ f.all Char.isDigit then
        some (i, f)
      else none

/-- Numeric value of a digit list, most significant first. -/
def digitsVal (l : List Char) : Nat :=
  l.foldl (fun a c => a * 10 + (c.toNat - 48)) 0

/-- Drops trailing `'0'` characters (viem trims the fraction's trailing
zeros before comparing its length to the decimals). -/
def trimTrailingZeros (l : List Char) : List Char :=
  (l.reverse.dropWhile (· = '0')).reverse

/-- The exact rational value denoted by a plain decimal string. -/
def decValue (s : String) : Option ℚ :=
  (decParts s).map (fun (i, f) =>
    (digitsVal i : ℚ) + (digitsVal f : ℚ) / 10 ^ f.length)

/-- viem's `parseEther`: integer-arithmetic conversion of a decimal string
to wei (18 decimals).  `intPart * 10^18 + fracPart * 10^(18 - |frac|)`
when the trimmed fraction fits in 18 digits. -/
def parseEther (s : String) : Option Nat :=
  match decParts s with
  | none => none
  | some (i, f) =>
      let f' := trimTrailingZeros f
      if f'.length ≤ 18 then
        some (digitsVal i * 10 ^ 18 + digitsVal f' * 10 ^ (18 - f'.length))
      else none

/-- Check `!isNaN(Number(a)) && Number(a) > 0` for plain decimal amount strings:
well-formed and of positive value. -/
def isValidAmountString (s : String) : Bool :=
  match decParts s with
  | some (i, f) => decide (0 < digitsVal i + digitsVal f)
  | none => false

/-- Check `s.startsWith("0x")`, over the character list. -/
def startsWith0x (s : String) : Bool :=
  match s.data with
  | '0' :: 'x' :: _ => true
  | _ => false

/-! ### Results, events and network environments -/

/-- The `Transaction` result shape shared by transfer, swap and bridge.
Optional fields model properties a given path may leave out of its object
literal: the transfer result carries `data` but no `chainId`
(`actions/transfer.ts` lines 168-174), the bridge result carries `chainId`
but no `data` (`actions/bridge.ts` lines 176-182), the swap result carries
both (`actions/swap.ts` lines 445-452). -/
structure Transaction where
  hash : String
  sender : String
  toAddr : String
  value : String
  callData : Option String
  chainId : Option Nat
  deriving Repr, DecidableEq

/-- A route request sent to the LI.FI aggregator by `getRoutes`.  The swap
path also passes slippage (as the decimal `bp / 10000`) and an ordering
option; the bridge path passes a destination address instead. -/
structure RouteReq where
  fromChainId : Nat
  toChainId : Nat
  fromToken : String
  toToken : String
  fromAmount : String
  fromAddress : String
  toAddress : Option String
  slippage : Option ℚ
  order : Option String
  deriving Repr, DecidableEq

/-- One step of an aggregator route; only the fields the plugin reads. -/
structure RouteStep where
  approvalAddress : String
  executionDuration : Nat
  deriving Repr, DecidableEq

/-- An aggregator route (opaque, externally sourced). -/
structure Route where
  steps : List RouteStep
  gasCostUSD : String
  deriving Repr, DecidableEq

/-- View `execution.steps[0]?.execution?.process[0]` of a route execution. -/
structure ProcessInfo where
  status : Option String
  errMsg : Option String
  txHash : String
  answerData : Option String
  deriving Repr, DecidableEq

/-- The observable of a route execution: its first process entry, when the
step/execution/process chain is populated. -/
structure ExecResult where
  process : Option ProcessInfo
  deriving Repr, DecidableEq

/-- Observable events of an operation, in order of occurrence. -/
inductive Ev
  /-- Event: `switchChain` was invoked with this chain identifier. -/
  | switched (chain : String)
  /-- A signing (wallet) client was obtained: records `currentChain` at
  the moment of the call and the client handle returned. -/
  | gotSigner (chain : String) (client : Nat)
  /-- The balance of this chain was queried (informationally or for a
  pre-flight check). -/
  | balanceQueried (chain : String)
  /-- Gas was estimated against the constructed call. -/
  | gasEstimated
  /-- A transaction was signed: records `currentChain` at the moment of
  signing and the client handle used. -/
  | signed (chain : String) (client : Nat)
  /-- A signed envelope was broadcast. -/
  | broadcasted
  /-- A route request was issued to the aggregator. -/
  | routeRequested (req : RouteReq)
  /-- Route execution was started (`executeRoute`). -/
  | routeExecStarted
  deriving Repr, DecidableEq

/-- Whether an event is a route request. -/
def Ev.isRouteRequest : Ev → Bool
  | .routeRequested _ => true
  | _ => false

/-- Whether an event is a signing, broadcast, or route-execution event. -/
def Ev.isSignOrExec : Ev → Bool
  | .signed _ _ => true
  | .broadcasted => true
  | .routeExecStarted => true
  | _ => false

/-- The fully assembled transfer transaction (`actions/transfer.ts`, lines
133-143); the signing account and the viem chain object are represented by
the session address and the numeric chain id. -/
structure TxRequest where
  toAddr : String
  value : Nat
  callData : String
  gas : Nat
  gasPrice : Nat
  nonce : Nat
  chainId : Nat
  account : String
  deriving Repr, DecidableEq

/-- Network/node oracle for the direct-transfer path: outcomes of the RPC
calls the operation makes.  `balanceRpc` is per chain; signing is a
function of the wallet-client handle and the assembled transaction. -/
structure NetEnv where
  fromAddress : String
  balanceRpc : String → Except String Nat
  estimateGas : Except String Nat
  gasPrice : Except String Nat
  txCount : Except String Nat
  signTx : Nat → TxRequest → Except String String
  sendRaw : String → Except String String

/-- Aggregator oracle for swap/bridge: the route list answered per request,
the sequence of signer demands the SDK makes of the registered callbacks
while executing a route, and the execution outcome. -/
inductive AggCmd
  /-- Callback `getWalletClient`: sign on the current chain. -/
  | useCurrent
  /-- Callback `switchChain(chainId)`: switch, then sign there. -/
  | switchTo (chainId : Nat)
  deriving Repr, DecidableEq

structure AggEnv where
  routes : RouteReq → Except String (List Route)
  script : List AggCmd
  outcome : Except String ExecResult

/-! ### Direct transfer (`actions/transfer.ts`, `TransferAction.transfer`) -/

/-- Parameters of a direct transfer; `data` is the optional calldata
(`null` in the generated content is `none`). -/
structure TransferParams where
  fromChain : String
  toAddress : String
  amount : String
  data : Option String
  deriving Repr, DecidableEq

/-- Method `TransferAction.transfer` (`actions/transfer.ts`, lines 37-186).
Validation error messages are modelled by their stable prefixes (the
source interpolates the offending values into them).  Returns the
operation outcome, the final session state and the event trace. -/
def transfer (env : NetEnv) (registry : ChainRegistry) (s : WalletState)
    (p : TransferParams) :
    Except String Transaction × WalletState × List Ev :=
  -- `if (!params.fromChain || !params.toAddress || !params.amount)`
  if p.fromChain = "" ∨ p.toAddress = "" ∨ p.amount = "" then
    (.error "Transfer failed: Missing required parameters", s, [])
  -- `if (isNaN(Number(params.amount)) || Number(params.amount) <= 0)`
  else if ¬ isValidAmountString p.amount then
    (.error "Transfer failed: Invalid amount", s, [])
  -- `if (!params.toAddress.startsWith('0x') || params.toAddress.length !== 42)`
  else if ¬ (startsWith0x p.toAddress ∧ p.toAddress.length = 42) then
    (.error "Transfer failed: Invalid to address", s, [])
  else
    -- `const walletClient = this.walletProvider.getWalletClient();` (used
    -- only for `getAddresses`, before the chain switch)
    match getWalletClient s with
    | .error e => (.error e, s, [])
    | .ok preClient =>
      let fromAddress := env.fromAddress
      -- `const chainConfig = this.walletProvider.getChainConfig(params.fromChain);`
      -- followed by property accesses on it (TypeError if unregistered)
      match registry.resolve p.fromChain with
      | none =>
          (.error "TypeError: undefined chain config", s,
            [.gotSigner s.currentChain preClient])
      | some meta =>
        -- `await this.walletProvider.switchChain(runtime, params.fromChain);`
        let s1 := switchChain s p.fromChain
        -- `const updatedWalletClient = this.walletProvider.getWalletClient();`
        match getWalletClient s1 with
        | .error e =>
            (.error e, s1,
              [.gotSigner s.currentChain preClient, .switched p.fromChain])
        | .ok updClient =>
          let pre : List Ev :=
            [.gotSigner s.currentChain preClient, .switched p.fromChain,
             .gotSigner p.fromChain updClient]
          -- beginning of the `try` block: any throw below is caught and
          -- re-thrown as `Transfer failed: ${error.message}`
          match parseEther p.amount with
          | none =>
              (.error "Transfer failed: invalid decimal value", s1, pre)
          | some parsedValue =>
            -- `const balance = await this.walletProvider.getWalletBalance();`
            -- (informational: the value is only logged, never compared)
            let _balance := getWalletBalance s1 env.balanceRpc
            let pre := pre ++ [.balanceQueried p.fromChain]
            match env.estimateGas with
            | .error m => (.error ("Transfer failed: " ++ m), s1, pre)
            | .ok gas =>
              let pre := pre ++ [.gasEstimated]
              match env.gasPrice with
              | .error m => (.error ("Transfer failed: " ++ m), s1, pre)
              | .ok price =>
                match env.txCount with
                | .error m => (.error ("Transfer failed: " ++ m), s1, pre)
                | .ok nonce =>
                  let tx : TxRequest :=
                    { toAddr := p.toAddress, value := parsedValue,
                      callData := p.data.getD "0x", gas := gas,
                      gasPrice := price, nonce := nonce,
                      chainId := meta.chainId, account := s.address }
                  -- `const signedTx = await updatedWalletClient.signTransaction(transaction);`
                  match env.signTx updClient tx with
                  | .error m => (.error ("Transfer failed: " ++ m), s1, pre)
                  | .ok signedTx =>
                    let pre := pre ++ [.signed p.fromChain updClient]
                    -- `const hash = await publicClient.sendRawTransaction(...);`
                    match env.sendRaw signedTx with
                    | .error m => (.error ("Transfer failed: " ++ m), s1, pre)
                    | .ok hash =>
                      (.ok { hash := hash, sender := fromAddress,
                             toAddr := p.toAddress,
                             value := toString parsedValue,
                             callData := some (p.data.getD "0x"),
                             chainId := none },
                       s1, pre ++ [.broadcasted])

/-! ### Route execution via the registered EVM provider callbacks

Both `SwapAction` and `BridgeAction` register the same two callbacks with
the LI.FI SDK (`actions/swap.ts` lines 303-323, `actions/bridge.ts` lines
50-70): `getWalletClient` hands out the signing client for the session's
current chain, and `switchChain(chainId)` looks the chain name up by
numeric id in the registry (throwing `Chain ID ... not supported` when
absent), switches the session, and hands out that chain's signing client.
The SDK's demands during `executeRoute` are modelled as a script of
`AggCmd`s; each demanded client is used to sign. -/

/-- Runs the SDK's sequence of signer demands against the session through
the two registered callbacks.  Returns the final state, the events, and
whether a callback threw. -/
def runAggScript (registry : ChainRegistry) :
    WalletState → List AggCmd → WalletState × List Ev × Except String Unit
  | s, [] => (s, [], .ok ())
  | s, .useCurrent :: rest =>
      match getWalletClient s with
      | .error e => (s, [], .error e)
      | .ok c =>
          let next := runAggScript registry s rest
          (next.1,
           .gotSigner s.currentChain c :: .signed s.currentChain c :: next.2.1,
           next.2.2)
  | s, .switchTo cid :: rest =>
      match registry.nameOfChainId cid with
      | none => (s, [], .error ("Chain ID " ++ toString cid ++ " not supported"))
      | some name =>
          let s1 := switchChain s name
          match getWalletClient s1 with
          | .error e => (s1, [.switched name], .error e)
          | .ok c =>
              let next := runAggScript registry s1 rest
              (next.1,
               .switched name :: .gotSigner name c :: .signed name c :: next.2.1,
               next.2.2)

/-- Model of `executeRoute(route, ...)`: the SDK drives the callbacks per
its script, then the execution result (or the first thrown error) is
surfaced. -/
def executeRouteModel (registry : ChainRegistry) (agg : AggEnv)
    (s : WalletState) : WalletState × List Ev × Except String ExecResult :=
  let next := runAggScript registry s agg.script
  match next.2.2 with
  | .error e => (next.1, Ev.routeExecStarted :: next.2.1, .error e)
  | .ok () => (next.1, Ev.routeExecStarted :: next.2.1, agg.outcome)

/-- Check `if (!process?.status || process.status === "FAILED")`: a
missing process, a missing status, the (falsy) empty status, or the
explicit failure marker. -/
def statusFailed : Option ProcessInfo → Bool
  | none => true
  | some proc =>
      match proc.status with
      | none => true
      | some st => st == "" || st == "FAILED"

/-! ### Swap (`actions/swap.ts`, `SwapAction.swap`) -/

/-- Parameters of a same-chain swap.  Slippage is a JS number in basis
points; `none` is the generated content's `null`. -/
structure SwapParams where
  chain : String
  fromToken : String
  toToken : String
  amount : String
  slippage : Option Int
  deriving Repr, DecidableEq

/-- Check `if (params.slippage && (params.slippage < 1 || params.slippage > 500))`:
a present slippage is range-checked only when it is truthy, i.e. nonzero. -/
def slippageRejected : Option Int → Bool
  | some v => v != 0 && (v < 1 || v > 500)
  | none => false

/-- Expression `params.slippage || 50`: the effective slippage in basis
points (absent or zero falls back to the default 50). -/
def effectiveSlippageBp : Option Int → Int
  | some v => if v = 0 then 50 else v
  | none => 50

/-- The zero address used as the native-token placeholder. -/
def zeroAddress : String := "0x0000000000000000000000000000000000000000"

/-- The route request `getRoutes({...})` the swap path sends (with the
slippage converted to its decimal form `bp / 10000` and the
`RECOMMENDED` ordering option). -/
def swapRouteReq (env : NetEnv) (p : SwapParams) (amountInWei : Nat)
    (meta : ChainMetadata) : RouteReq :=
  { fromChainId := meta.chainId, toChainId := meta.chainId,
    fromToken := p.fromToken, toToken := p.toToken,
    fromAmount := toString amountInWei, fromAddress := env.fromAddress,
    toAddress := none,
    slippage := some ((effectiveSlippageBp p.slippage : ℚ) / 10000),
    order := some "RECOMMENDED" }

/-- Method `SwapAction.swap` (`actions/swap.ts`, lines 366-457).
Validation error messages are modelled without the quotation marks the
source puts around chain names. -/
def swap (env : NetEnv) (agg : AggEnv) (registry : ChainRegistry)
    (s : WalletState) (p : SwapParams) :
    Except String Transaction × WalletState × List Ev :=
  if p.chain = "" then (.error "Chain is required", s, [])
  else if ¬ (p.chain = "ethereum" ∨ p.chain = "base" ∨ p.chain = "sepolia") then
    (.error "Chain must be ethereum, base, or sepolia", s, [])
  else if p.fromToken = "" then (.error "Input token is required", s, [])
  else if p.toToken = "" then (.error "Output token is required", s, [])
  else if p.amount = "" then (.error "Amount is required", s, [])
  else if slippageRejected p.slippage then
    (.error "Slippage must be between 1 and 500 basis points", s, [])
  else
    -- `const walletClient = this.walletProvider.getWalletClient();` (for
    -- `getAddresses` only, before the switch)
    match getWalletClient s with
    | .error e => (.error e, s, [])
    | .ok preClient =>
      -- `const [fromAddress] = await walletClient.getAddresses();` then
      -- `await this.walletProvider.switchChain(..., params.chain);`;
      -- the `try` block begins: throws below are re-thrown as
      -- `Swap failed: ${error.message}`
      match parseEther p.amount with
      | none =>
          (.error "Swap failed: invalid decimal value", switchChain s p.chain,
            [.gotSigner s.currentChain preClient, .switched p.chain])
      | some amountInWei =>
        -- `getChainConfigs(...)[params.chain].chainId` (TypeError when the
        -- supplied registry lacks the chain)
        match registry.resolve p.chain with
        | none =>
            (.error "Swap failed: TypeError", switchChain s p.chain,
              [.gotSigner s.currentChain preClient, .switched p.chain])
        | some meta =>
          match agg.routes (swapRouteReq env p amountInWei meta) with
          | .error m =>
              (.error ("Swap failed: " ++ m), switchChain s p.chain,
                [.gotSigner s.currentChain preClient, .switched p.chain,
                 .routeRequested (swapRouteReq env p amountInWei meta)])
          | .ok [] =>
              (.error "Swap failed: No routes found", switchChain s p.chain,
                [.gotSigner s.currentChain preClient, .switched p.chain,
                 .routeRequested (swapRouteReq env p amountInWei meta)])
          | .ok (r0 :: _) =>
            match (executeRouteModel registry agg (switchChain s p.chain)).2.2 with
            | .error m =>
                (.error ("Swap failed: " ++ m),
                  (executeRouteModel registry agg (switchChain s p.chain)).1,
                  [.gotSigner s.currentChain preClient, .switched p.chain,
                   .routeRequested (swapRouteReq env p amountInWei meta)] ++
                  (executeRouteModel registry agg (switchChain s p.chain)).2.1)
            | .ok execRes =>
              if statusFailed execRes.process then
                (.error "Swap failed: Transaction failed",
                  (executeRouteModel registry agg (switchChain s p.chain)).1,
                  [.gotSigner s.currentChain preClient, .switched p.chain,
                   .routeRequested (swapRouteReq env p amountInWei meta)] ++
                  (executeRouteModel registry agg (switchChain s p.chain)).2.1)
              else
                match execRes.process, r0.steps with
                | some proc, step0 :: _ =>
                    (.ok { hash := proc.txHash, sender := env.fromAddress,
                           toAddr := step0.approvalAddress,
                           value := toString amountInWei,
                           callData := proc.answerData,
                           chainId := some meta.chainId },
                      (executeRouteModel registry agg (switchChain s p.chain)).1,
                      [.gotSigner s.currentChain preClient, .switched p.chain,
                       .routeRequested (swapRouteReq env p amountInWei meta)] ++
                      (executeRouteModel registry agg (switchChain s p.chain)).2.1)
                -- `routes.routes[0].steps[0]` on an empty steps array
                | _, [] =>
                    (.error "Swap failed: TypeError",
                      (executeRouteModel registry agg (switchChain s p.chain)).1,
                      [.gotSigner s.currentChain preClient, .switched p.chain,
                       .routeRequested (swapRouteReq env p amountInWei meta)] ++
                      (executeRouteModel registry agg (switchChain s p.chain)).2.1)
                | none, _ =>
                    (.error "Swap failed: TypeError",
                      (executeRouteModel registry agg (switchChain s p.chain)).1,
                      [.gotSigner s.currentChain preClient, .switched p.chain,
                       .routeRequested (swapRouteReq env p amountInWei meta)] ++
                      (executeRouteModel registry agg (switchChain s p.chain)).2.1)

/-! ### Bridge (`actions/bridge.ts`, `BridgeAction.bridge`) -/

/-- Parameters of a cross-chain bridge; token addresses and the
destination address are optional (`null` is `none`). -/
structure BridgeParams where
  fromChain : String
  toChain : String
  fromToken : Option String
  toToken : Option String
  amount : String
  toAddress : Option String
  deriving Repr, DecidableEq

/-- Check `if (!balance || balance < amountInWei)`: a `null` balance and a
(falsy) zero balance both count as insufficient, as does any balance
strictly below the requested amount. -/
def insufficientCheck (balance : Option Nat) (amountInWei : Nat) : Bool :=
  match balance with
  | none => true
  | some b => b == 0 || b < amountInWei

/-- Expression `params.toAddress || fromAddress`: destination defaults to
the sender when absent or empty. -/
def bridgeDestination (toAddress : Option String) (fromAddress : String) :
    String :=
  match toAddress with
  | some t => if t = "" then fromAddress else t
  | none => fromAddress

/-- The events up to and including the bridge's pre-flight balance query:
client obtained for the address read, switch to the source chain, balance
queried there. -/
def bridgePreTrace (s : WalletState) (preClient : Nat) (fromChain : String) :
    List Ev :=
  [.gotSigner s.currentChain preClient, .switched fromChain,
   .balanceQueried fromChain]

/-- The route request `getRoutes({...})` the bridge path sends (token
addresses defaulted to the zero address, destination defaulted to the
sender). -/
def bridgeRouteReq (env : NetEnv) (p : BridgeParams) (amountInWei : Nat)
    (fromMeta toMeta : ChainMetadata) : RouteReq :=
  { fromChainId := fromMeta.chainId, toChainId := toMeta.chainId,
    fromToken := p.fromToken.getD zeroAddress,
    toToken := p.toToken.getD zeroAddress,
    fromAmount := toString amountInWei,
    fromAddress := env.fromAddress,
    toAddress := some (bridgeDestination p.toAddress env.fromAddress),
    slippage := none, order := none }

/-- Method `BridgeAction.bridge` (`actions/bridge.ts`, lines 103-192).
Error messages are modelled by their stable prefixes (the source
interpolates amounts, statuses and chain ids into them). -/
def bridge (env : NetEnv) (agg : AggEnv) (registry : ChainRegistry)
    (s : WalletState) (p : BridgeParams) :
    Except String Transaction × WalletState × List Ev :=
  -- `if (!params.amount || isNaN(Number(params.amount)) || Number(params.amount) <= 0)`
  if p.amount = "" ∨ ¬ isValidAmountString p.amount then
    (.error "Invalid amount", s, [])
  else
    -- `const walletClient = this.walletProvider.getWalletClient();` (for
    -- `getAddresses` only, before the switch)
    match getWalletClient s with
    | .error e => (.error e, s, [])
    | .ok preClient =>
      -- `await this.walletProvider.switchChain(runtime, params.fromChain);`
      -- then `const balance = await this.walletProvider.getWalletBalance();`
      -- then `const amountInWei = parseEther(params.amount);` (before the
      -- try: a viem throw here is not wrapped)
      match parseEther p.amount with
      | none =>
          (.error "invalid decimal value", switchChain s p.fromChain,
            bridgePreTrace s preClient p.fromChain)
      | some amountInWei =>
        -- the pre-flight local check, before any aggregator contact
        if insufficientCheck
            (getWalletBalance (switchChain s p.fromChain) env.balanceRpc)
            amountInWei then
          (.error ("Insufficient balance. Required: " ++ p.amount ++ " ETH"),
            switchChain s p.fromChain, bridgePreTrace s preClient p.fromChain)
        else
          -- beginning of the `try` block: throws below are re-thrown as
          -- `Bridge failed: ${error.message}`
          match registry.resolve p.fromChain, registry.resolve p.toChain with
          | some fromMeta, some toMeta =>
            match agg.routes (bridgeRouteReq env p amountInWei fromMeta toMeta) with
            | .error m =>
                (.error ("Bridge failed: " ++ m), switchChain s p.fromChain,
                  bridgePreTrace s preClient p.fromChain ++
                  [.routeRequested (bridgeRouteReq env p amountInWei fromMeta toMeta)])
            | .ok [] =>
                (.error
                  "Bridge failed: No bridge routes found. The requested bridge path might not be supported.",
                  switchChain s p.fromChain,
                  bridgePreTrace s preClient p.fromChain ++
                  [.routeRequested (bridgeRouteReq env p amountInWei fromMeta toMeta)])
            | .ok (r0 :: _) =>
              -- the route-details log reads `selectedRoute.steps[0].estimate...`
              match r0.steps with
              | [] =>
                  (.error "Bridge failed: TypeError", switchChain s p.fromChain,
                    bridgePreTrace s preClient p.fromChain ++
                    [.routeRequested (bridgeRouteReq env p amountInWei fromMeta toMeta)])
              | step0 :: _ =>
                match (executeRouteModel registry agg (switchChain s p.fromChain)).2.2 with
                | .error m =>
                    (.error ("Bridge failed: " ++ m),
                      (executeRouteModel registry agg (switchChain s p.fromChain)).1,
                      bridgePreTrace s preClient p.fromChain ++
                      [.routeRequested (bridgeRouteReq env p amountInWei fromMeta toMeta)] ++
                      (executeRouteModel registry agg (switchChain s p.fromChain)).2.1)
                | .ok execRes =>
                  if statusFailed execRes.process then
                    (.error "Bridge failed: Bridge transaction failed",
                      (executeRouteModel registry agg (switchChain s p.fromChain)).1,
                      bridgePreTrace s preClient p.fromChain ++
                      [.routeRequested (bridgeRouteReq env p amountInWei fromMeta toMeta)] ++
                      (executeRouteModel registry agg (switchChain s p.fromChain)).2.1)
                  else
                    match execRes.process with
                    | some proc =>
                        (.ok { hash := proc.txHash, sender := env.fromAddress,
                               toAddr := step0.approvalAddress,
                               value := toString amountInWei,
                               callData := none,
                               chainId := some fromMeta.chainId },
                          (executeRouteModel registry agg (switchChain s p.fromChain)).1,
                          bridgePreTrace s preClient p.fromChain ++
                          [.routeRequested (bridgeRouteReq env p amountInWei fromMeta toMeta)] ++
                          (executeRouteModel registry agg (switchChain s p.fromChain)).2.1)
                    | none =>
                        (.error "Bridge failed: TypeError",
                          (executeRouteModel registry agg (switchChain s p.fromChain)).1,
                          bridgePreTrace s preClient p.fromChain ++
                          [.routeRequested (bridgeRouteReq env p amountInWei fromMeta toMeta)] ++
                          (executeRouteModel registry agg (switchChain s p.fromChain)).2.1)
          -- `getChainConfigs(runtime)[params.fromChain].chainId` on an
          -- unregistered chain (TypeError inside the try)
          | _, _ =>
              (.error "Bridge failed: TypeError", switchChain s p.fromChain,
                bridgePreTrace s preClient p.fromChain)

/-! ### Concrete fixtures for witnesses and counterexamples -/

/-- A session address for concrete runs. -/
def demoAddress : String := "0x00000000000000000000000000000000000000aa"

/-- A well-formed 42-character destination address. -/
def demoTarget : String := "0x742d35Cc6634C0532925a3b844Bc454e4438f44e"

/-- A fresh session over the built-in registry (current chain
`ethereum`). -/
def demoState : WalletState := initWallet DEFAULT_CHAIN_CONFIGS demoAddress

/-- A stub network backend: every RPC call succeeds, signing yields a
deterministic envelope, broadcast yields hash `0xabc`. -/
def stubNet : NetEnv :=
  { fromAddress := demoAddress,
    balanceRpc := fun _ => .ok (5 * 10 ^ 18),
    estimateGas := .ok 21000,
    gasPrice := .ok 7,
    txCount := .ok 1,
    signTx := fun c _ => .ok ("signed:" ++ toString c),
    sendRaw := fun _ => .ok "0xabc" }

/-- A stub aggregator holding one single-step route; the SDK signs once on
the current chain and reports a `DONE` process with hash `0xdef`. -/
def stubAgg : AggEnv :=
  { routes := fun _ =>
      .ok [{ steps := [{ approvalAddress := demoTarget,
                         executionDuration := 30 }],
             gasCostUSD := "1.00" }],
    script := [.useCurrent],
    outcome := .ok { process := some { status := some "DONE",
                                       errMsg := none,
                                       txHash := "0xdef",
                                       answerData := some "0x" } } }

/-- A stub aggregator that knows no routes and records (through the event
trace) whether it was ever contacted. -/
def emptyAgg : AggEnv :=
  { routes := fun _ => .ok [],
    script := [],
    outcome := .error "unreachable" }

/-- A stub network backend whose balance RPC always fails. -/
def downNet : NetEnv :=
  { stubNet with balanceRpc := fun _ => .error "rpc down" }

/-- A stub network backend reporting a balance of a single wei. -/
def poorNet : NetEnv :=
  { stubNet with balanceRpc := fun _ => .ok 1 }

/-- Transfer of 1.0 native currency to a 42-character address on the
configured sepolia test chain. -/
def demoTransferParams : TransferParams :=
  { fromChain := "sepolia", toAddress := demoTarget, amount := "1.0",
    data := none }

/-- A swap on base with default slippage. -/
def demoSwapParams : SwapParams :=
  { chain := "base", fromToken := zeroAddress, toToken := demoTarget,
    amount := "1", slippage := none }

/-- A bridge of 2 native units from base to ethereum. -/
def demoBridgeParams : BridgeParams :=
  { fromChain := "base", toChain := "ethereum", fromToken := none,
    toToken := none, amount := "2", toAddress := none }

/-- The result of the demo transfer run against `stubNet`. -/
def demoTransferTx : Transaction :=
  { hash := "0xabc", sender := demoAddress, toAddr := demoTarget,
    value := "1000000000000000000", callData := some "0x", chainId := none }

/-- The result of the demo swap run against `stubNet`/`stubAgg`. -/
def demoSwapTx : Transaction :=
  { hash := "0xdef", sender := demoAddress, toAddr := demoTarget,
    value := "1000000000000000000", callData := some "0x",
    chainId := some 8453 }

/-- The result of the demo bridge run against `stubNet`/`stubAgg`. -/
def demoBridgeTx : Transaction :=
  { hash := "0xdef", sender := demoAddress, toAddr := demoTarget,
    value := "2000000000000000000", callData := none,
    chainId := some 8453 }

/-! ### Trace predicates -/

/-- Every signing event in the trace signs with the wallet client the
session's bindings associate to the chain that was current at signing
time: the spec's invariant that all signing occurs against
`bindings[currentChain].signingClient`. -/
def signsOnlyWith (s : WalletState) (t : List Ev) : Prop :=
  ∀ ch c, Ev.signed ch c ∈ t → (s.bindings ch).map (·.walletClient) = some c

/-- Position-wise ordering: any signing event at index `n` of the trace is
preceded by a switch to the given source chain at some earlier index — the
operation switched to the source chain before any signing happened. -/
def switchBeforeSigning (src : String) (t : List Ev) : Prop :=
  ∀ n ch c, t.get? n = some (Ev.signed ch c) →
    ∃ m, m < n ∧ t.get? m = some (Ev.switched src)

/-- Whether an aggregator demand switches chains. -/
def AggCmd.isSwitch : AggCmd → Bool
  | .switchTo _ => true
  | .useCurrent => false

/-! ## Helper lemmas -/

theorem getWalletClient_ok {s : WalletState} {c : Nat}
    (h : getWalletClient s = .ok c) :
    (s.bindings s.currentChain).map (·.walletClient) = some c := by
  unfold getWalletClient at h
  cases hb : s.bindings s.currentChain <;> rw [hb] at h <;> simp_all

theorem runAggScript_bindings (r : ChainRegistry) (cmds : List AggCmd)
    (s : WalletState) :
    (runAggScript r s cmds).1.bindings = s.bindings := by
  induction cmds generalizing s with
  | nil => rfl
  | cons cmd rest ih =>
    cases cmd with
    | useCurrent =>
      simp only [runAggScript]
      split
      · rfl
      · exact ih s
    | switchTo cid =>
      simp only [runAggScript]
      split
      · rfl
      · split
        · rfl
        · exact ih _

/-- Every signing the aggregator performs through the registered callbacks
uses the wallet client bound (in the session's immutable client table) to
the chain that is current at the moment of signing. -/
theorem runAggScript_signs (r : ChainRegistry) (cmds : List AggCmd)
    (s : WalletState) :
    signsOnlyWith s (runAggScript r s cmds).2.1 := by
  induction cmds generalizing s with
  | nil => intro ch c h; simp [runAggScript] at h
  | cons cmd rest ih =>
    cases cmd with
    | useCurrent =>
      intro ch c h
      simp only [runAggScript] at h
      split at h
      · simp at h
      · next c0 hg =>
          simp only [List.mem_cons] at h
          rcases h with h | h | h
          · exact absurd h (by simp)
          · obtain ⟨h1, h2⟩ := Ev.signed.inj h
            subst h1; subst h2
            exact getWalletClient_ok hg
          · exact ih s ch c h
    | switchTo cid =>
      intro ch c h
      simp only [runAggScript] at h
      split at h
      · simp at h
      · next name hn =>
          split at h
          · simp at h
          · next c0 hg =>
              simp only [List.mem_cons] at h
              rcases h with h | h | h | h
              · exact absurd h (by simp)
              · exact absurd h (by simp)
              · obtain ⟨h1, h2⟩ := Ev.signed.inj h
                subst h1; subst h2
                have := getWalletClient_ok hg
                simpa [switchChain] using this
              · exact ih (switchChain s name) ch c h

/-- When the aggregator's script never switches chains, all its signing
happens on the chain that was current when route execution began. -/
theorem runAggScript_noswitch (r : ChainRegistry) (cmds : List AggCmd)
    (s : WalletState)
    (hns : ∀ cmd ∈ cmds, cmd.isSwitch = false) :
    ∀ ch c, Ev.signed ch c ∈ (runAggScript r s cmds).2.1 →
      ch = s.currentChain := by
  induction cmds generalizing s with
  | nil => intro ch c h; simp [runAggScript] at h
  | cons cmd rest ih =>
    cases cmd with
    | useCurrent =>
      intro ch c h
      simp only [runAggScript] at h
      split at h
      · simp at h
      · simp only [List.mem_cons] at h
        rcases h with h | h | h
        · exact absurd h (by simp)
        · exact (Ev.signed.inj h).1
        · exact ih s (fun d hd => hns d (List.mem_cons_of_mem _ hd)) ch c h
    | switchTo cid =>
      exact absurd (hns _ (List.mem_cons_self _ _)) (by simp [AggCmd.isSwitch])

/-! ## Claims -/

/-- C2 (counterexample): `switchChain` applied to the unregistered
identifier `dogechain` does not fail — it is a total function — and it
does mutate `currentChain`, from `ethereum` to `dogechain`. -/
theorem switchChain_unknown_counterexample :
    DEFAULT_CHAIN_CONFIGS.resolve "dogechain" = none ∧
    demoState.currentChain = "ethereum" ∧
    (switchChain demoState "dogechain").currentChain = "dogechain" := by
  refine ⟨by decide, rfl, rfl⟩

/-- C2 (amended): `switchChain(chainId)` unconditionally sets
`currentChain` to the given identifier and succeeds — its body is a plain
assignment with no failure path (it returns a state, not an error), so no
`UnknownChain` check is performed for unregistered identifiers, and the
client bindings and account address are untouched. -/
theorem switchChain_sets_currentChain (s : WalletState) (chain : String) :
    (switchChain s chain).currentChain = chain ∧
    (switchChain s chain).bindings = s.bindings ∧
    (switchChain s chain).address = s.address :=
  ⟨rfl, rfl, rfl⟩

/-- C8: the balance query never propagates an RPC failure — when the RPC
call for the current chain errors, `getWalletBalance` returns the `none`
sentinel (distinct from `some 0`) — and on RPC success (with the current
chain's clients bound) it returns exactly the reported native balance of
the session's `currentChain`. -/
theorem getWalletBalance_no_raise (s : WalletState)
    (rpc : String → Except String Nat) :
    (∀ e, rpc s.currentChain = .error e → getWalletBalance s rpc = none) ∧
    (∀ b bind, s.bindings s.currentChain = some bind →
      rpc s.currentChain = .ok b → getWalletBalance s rpc = some b) ∧
    (∀ b : Nat, (none : Option Nat) ≠ some b) := by
  refine ⟨?_, ?_, by simp⟩
  · intro e he
    unfold getWalletBalance getPublicClient getWalletClient
    cases hb : s.bindings s.currentChain <;> simp [he]
  · intro b bind hb hok
    unfold getWalletBalance getPublicClient getWalletClient
    rw [hb]
    simp [hok]

/-- C8 witness: with the `ethereum` binding of the demo session, a failing
RPC yields the `none` sentinel and a successful RPC reporting 7 wei yields
`some 7`. -/
theorem getWalletBalance_no_raise_witness :
    getWalletBalance demoState (fun _ => .error "boom") = none ∧
    getWalletBalance demoState (fun _ => .ok 7) = some 7 :=
  ⟨(getWalletBalance_no_raise demoState _).1 "boom" rfl,
   (getWalletBalance_no_raise demoState _).2.1 7 ⟨2, 3⟩ (by decide) rfl⟩

/-! ### Digit-string arithmetic for the exact-conversion claim -/

theorem digitsVal_foldl (acc : Nat) (l : List Char) :
    l.foldl (fun a c => a * 10 + (c.toNat - 48)) acc
      = acc * 10 ^ l.length + digitsVal l := by
  induction l generalizing acc with
  | nil => simp [digitsVal]
  | cons c cs ih =>
    simp only [List.foldl_cons, List.length_cons, digitsVal]
    rw [ih (acc * 10 + (c.toNat - 48)), ih (0 * 10 + (c.toNat - 48))]
    ring

theorem digitsVal_append (a b : List Char) :
    digitsVal (a ++ b) = digitsVal a * 10 ^ b.length + digitsVal b := by
  unfold digitsVal
  rw [List.foldl_append]
  exact digitsVal_foldl _ b

theorem digitsVal_replicate_zero (k : Nat) :
    digitsVal (List.replicate k '0') = 0 := by
  induction k with
  | zero => rfl
  | succ n ih =>
    rw [List.replicate_succ]
    show List.foldl _ (0 * 10 + ('0'.toNat - 48)) (List.replicate n '0') = 0
    rw [digitsVal_foldl]
    simpa using ih

theorem trim_decomp (l : List Char) :
    l = trimTrailingZeros l ++
        List.replicate (l.length - (trimTrailingZeros l).length) '0' := by
  have hsplit : l.reverse.takeWhile (· = '0') ++ l.reverse.dropWhile (· = '0')
      = l.reverse := List.takeWhile_append_dropWhile _ _
  have hlen : (l.reverse.takeWhile (· = '0')).length +
      (l.reverse.dropWhile (· = '0')).length = l.length := by
    have := congrArg List.length hsplit
    simp only [List.length_append, List.length_reverse] at this
    exact this
  have hrep : (l.reverse.takeWhile (· = '0')).reverse
      = List.replicate (l.reverse.takeWhile (· = '0')).length '0' := by
    rw [← List.length_reverse (l.reverse.takeWhile (· = '0'))]
    rw [List.eq_replicate_length]
    intro b hb
    rw [List.mem_reverse] at hb
    have := List.mem_takeWhile_imp hb
    simpa using this
  have hlen2 : (l.reverse.takeWhile (· = '0')).length
      = l.length - (trimTrailingZeros l).length := by
    simp only [trimTrailingZeros, List.length_reverse]
    omega
  calc l = l.reverse.reverse := (List.reverse_reverse l).symm
    _ = (l.reverse.takeWhile (· = '0') ++ l.reverse.dropWhile (· = '0')).reverse := by
        rw [hsplit]
    _ = (l.reverse.dropWhile (· = '0')).reverse ++
        (l.reverse.takeWhile (· = '0')).reverse := by
        rw [List.reverse_append]
    _ = trimTrailingZeros l ++
        List.replicate (l.length - (trimTrailingZeros l).length) '0' := by
        rw [hrep, hlen2]
        rfl

theorem trim_length_le (l : List Char) :
    (trimTrailingZeros l).length ≤ l.length := by
  have := congrArg List.length (trim_decomp l)
  simp only [List.length_append, List.length_replicate] at this
  omega

theorem digitsVal_trim (l : List Char) :
    digitsVal l = digitsVal (trimTrailingZeros l) *
      10 ^ (l.length - (trimTrailingZeros l).length) := by
  conv_lhs => rw [trim_decomp l]
  rw [digitsVal_append, digitsVal_replicate_zero, List.length_replicate]
  exact Nat.add_zero _

/-- Exactness of the decimal-string conversion: for a well-formed amount
whose trimmed fraction fits in the 18 decimals, `parseEther` produces the
integer `intDigits * 10^18 + fracDigits * 10^(18 - |frac|)`, and that
integer equals the amount's exact rational value times `10^18` — integer
arithmetic with no rounding. -/
theorem parseEther_exact (s : String) (i f : List Char)
    (hp : decParts s = some (i, f))
    (hlen : (trimTrailingZeros f).length ≤ 18) :
    parseEther s
      = some (digitsVal i * 10 ^ 18 +
          digitsVal (trimTrailingZeros f) *
            10 ^ (18 - (trimTrailingZeros f).length)) ∧
    ∀ q, decValue s = some q →
      ((digitsVal i * 10 ^ 18 +
          digitsVal (trimTrailingZeros f) *
            10 ^ (18 - (trimTrailingZeros f).length) : Nat) : ℚ)
        = q * 10 ^ 18 := by
  constructor
  · unfold parseEther
    rw [hp]
    simp [hlen]
  · intro q hq
    unfold decValue at hq
    rw [hp] at hq
    simp only [Option.map_some'] at hq
    obtain rfl := (Option.some.inj hq).symm
    have hnn := trim_length_le f
    have hb : (digitsVal f : ℚ)
        = (digitsVal (trimTrailingZeros f) : ℚ) *
          10 ^ (f.length - (trimTrailingZeros f).length) := by
      exact_mod_cast congrArg (fun n : Nat => (n : ℚ)) (digitsVal_trim f)
    have h10 : (10 : ℚ) ^ f.length ≠ 0 := by positivity
    have hpow : (10 : ℚ) ^ (f.length - (trimTrailingZeros f).length) * 10 ^ 18
        = 10 ^ f.length * 10 ^ (18 - (trimTrailingZeros f).length) := by
      rw [← pow_add, ← pow_add]
      congr 1
      omega
    have key : ((digitsVal f : ℚ) / 10 ^ f.length) * 10 ^ 18
        = (digitsVal (trimTrailingZeros f) : ℚ) *
          10 ^ (18 - (trimTrailingZeros f).length) := by
      rw [hb, div_mul_eq_mul_div, mul_assoc, hpow,
        mul_comm ((10 : ℚ) ^ f.length) _, ← mul_assoc, mul_div_assoc,
        div_self h10, mul_one]
    push_cast
    rw [add_mul, key]
    norm_num

/-! ### Result-shape helpers for successful runs -/

theorem transfer_ok_shape (env : NetEnv) (registry : ChainRegistry)
    (s : WalletState) (p : TransferParams) (tx : Transaction)
    (hrun : (transfer env registry s p).1 = .ok tx) :
    (∃ v, parseEther p.amount = some v ∧ tx.value = toString v) ∧
    tx.toAddr = p.toAddress ∧ tx.sender = env.fromAddress ∧
    tx.chainId = none ∧ tx.callData = some (p.data.getD "0x") := by
  unfold transfer at hrun
  simp only [] at hrun
  repeat' split at hrun
  all_goals simp_all
  all_goals (subst hrun; simp)

theorem swap_ok_shape (env : NetEnv) (agg : AggEnv)
    (registry : ChainRegistry) (s : WalletState) (p : SwapParams)
    (tx : Transaction)
    (hrun : (swap env agg registry s p).1 = .ok tx) :
    ∃ meta v, registry.resolve p.chain = some meta ∧
      parseEther p.amount = some v ∧
      tx.value = toString v ∧ tx.chainId = some meta.chainId ∧
      tx.sender = env.fromAddress := by
  unfold swap at hrun
  repeat' split at hrun
  all_goals simp_all
  all_goals (subst hrun; simp)

theorem bridge_ok_shape (env : NetEnv) (agg : AggEnv)
    (registry : ChainRegistry) (s : WalletState) (p : BridgeParams)
    (tx : Transaction)
    (hrun : (bridge env agg registry s p).1 = .ok tx) :
    ∃ fromMeta v, registry.resolve p.fromChain = some fromMeta ∧
      parseEther p.amount = some v ∧
      tx.value = toString v ∧ tx.chainId = some fromMeta.chainId ∧
      tx.sender = env.fromAddress ∧ tx.callData = none := by
  unfold bridge at hrun
  repeat' split at hrun
  all_goals simp_all
  all_goals (subst hrun; simp)

/-- C3 (counterexample): a successful direct transfer (demo fixture with a
stub backend) produces a result whose `chainId` field is absent, so not
every successful path includes the source chain's `chainId` in its
result. -/
theorem transactionResult_chainId_counterexample :
    (transfer stubNet DEFAULT_CHAIN_CONFIGS demoState
        demoTransferParams).1 = .ok demoTransferTx ∧
    demoTransferTx.chainId = none :=
  ⟨rfl, rfl⟩

/-- C3 (amended): every successful transfer, swap and bridge returns the
normalized result shape — hash, from-address, to-address, the converted
smallest-unit amount printed as a decimal string, optional calldata — and
the swap and bridge results carry the source chain's `chainId`, while the
direct-transfer result omits `chainId` (its object literal has no such
property). -/
theorem transactionResult_shape
    (env : NetEnv) (agg : AggEnv) (registry : ChainRegistry)
    (s : WalletState) (pt : TransferParams) (ps : SwapParams)
    (pb : BridgeParams) (tx : Transaction) :
    ((transfer env registry s pt).1 = .ok tx →
      (∃ v, parseEther pt.amount = some v ∧ tx.value = toString v) ∧
      tx.toAddr = pt.toAddress ∧ tx.sender = env.fromAddress ∧
      tx.callData = some (pt.data.getD "0x") ∧ tx.chainId = none) ∧
    ((swap env agg registry s ps).1 = .ok tx →
      ∃ meta v, registry.resolve ps.chain = some meta ∧
        parseEther ps.amount = some v ∧ tx.value = toString v ∧
        tx.sender = env.fromAddress ∧ tx.chainId = some meta.chainId) ∧
    ((bridge env agg registry s pb).1 = .ok tx →
      ∃ fromMeta v, registry.resolve pb.fromChain = some fromMeta ∧
        parseEther pb.amount = some v ∧ tx.value = toString v ∧
        tx.sender = env.fromAddress ∧ tx.callData = none ∧
        tx.chainId = some fromMeta.chainId) := by
  refine ⟨?_, ?_, ?_⟩
  · intro hrun
    obtain ⟨hv, h1, h2, h3, h4⟩ := transfer_ok_shape env registry s pt tx hrun
    exact ⟨hv, h1, h2, h4, h3⟩
  · intro hrun
    obtain ⟨meta, v, h1, h2, h3, h4, h5⟩ :=
      swap_ok_shape env agg registry s ps tx hrun
    exact ⟨meta, v, h1, h2, h3, h5, h4⟩
  · intro hrun
    obtain ⟨fm, v, h1, h2, h3, h4, h5, h6⟩ :=
      bridge_ok_shape env agg registry s pb tx hrun
    exact ⟨fm, v, h1, h2, h3, h5, h6, h4⟩

/-- C3 witness: the amended shape theorem applied to the three demo runs:
the transfer result has no `chainId`, while the swap and bridge results
carry base's chain id 8453, and all three report the converted amount as a
decimal string. -/
theorem transactionResult_shape_witness :
    ((∃ v, parseEther demoTransferParams.amount = some v ∧
        demoTransferTx.value = toString v) ∧
      demoTransferTx.chainId = none) ∧
    (∃ meta v, DEFAULT_CHAIN_CONFIGS.resolve demoSwapParams.chain = some meta ∧
      parseEther demoSwapParams.amount = some v ∧
      demoSwapTx.value = toString v ∧ demoSwapTx.chainId = some meta.chainId) ∧
    (∃ fm v, DEFAULT_CHAIN_CONFIGS.resolve demoBridgeParams.fromChain = some fm ∧
      parseEther demoBridgeParams.amount = some v ∧
      demoBridgeTx.value = toString v ∧ demoBridgeTx.callData = none ∧
      demoBridgeTx.chainId = some fm.chainId) := by
  refine ⟨?_, ?_, ?_⟩
  · obtain ⟨hv, -, -, -, hcid⟩ :=
      (transactionResult_shape stubNet stubAgg DEFAULT_CHAIN_CONFIGS demoState
        demoTransferParams demoSwapParams demoBridgeParams demoTransferTx).1
        (by rfl)
    exact ⟨hv, hcid⟩
  · obtain ⟨meta, v, h1, h2, h3, -, h5⟩ :=
      (transactionResult_shape stubNet stubAgg DEFAULT_CHAIN_CONFIGS demoState
        demoTransferParams demoSwapParams demoBridgeParams demoSwapTx).2.1
        (by rfl)
    exact ⟨meta, v, h1, h2, h3, h5⟩
  · obtain ⟨fm, v, h1, h2, h3, -, h5, h6⟩ :=
      (transactionResult_shape stubNet stubAgg DEFAULT_CHAIN_CONFIGS demoState
        demoTransferParams demoSwapParams demoBridgeParams demoBridgeTx).2.2
        (by rfl)
    exact ⟨fm, v, h1, h2, h3, h5, h6⟩

/-- C7: for every valid transfer whose decimal amount is representable
within the 18-decimal precision, the conversion to the smallest unit is
exact integer arithmetic: `parseEther` yields an integer `v` whose
rational value is exactly `amount * 10^18` (no floating-point rounding),
and a successful transfer reports exactly that integer, decimal-printed,
as the result's `value`. -/
theorem transfer_exact_amount_conversion
    (env : NetEnv) (registry : ChainRegistry) (s : WalletState)
    (p : TransferParams) (i f : List Char) (q : ℚ) (tx : Transaction)
    (hp : decParts p.amount = some (i, f))
    (hlen : (trimTrailingZeros f).length ≤ 18)
    (hq : decValue p.amount = some q)
    (hrun : (transfer env registry s p).1 = .ok tx) :
    ∃ v : Nat, parseEther p.amount = some v ∧ (v : ℚ) = q * 10 ^ 18 ∧
      tx.value = toString v := by
  obtain ⟨hpe, hval⟩ := parseEther_exact p.amount i f hp hlen
  obtain ⟨⟨v, hv, htxv⟩, -, -, -, -⟩ :=
    transfer_ok_shape env registry s p tx hrun
  refine ⟨v, hv, ?_, htxv⟩
  have hv2 : parseEther p.amount = some v := hv
  rw [hpe] at hv2
  obtain rfl := (Option.some.inj hv2).symm
  exact hval q hq

/-- C7 witness: transferring "1.0" on the demo fixture yields exactly
`10^18` wei, whose decimal print is `1000000000000000000`, and
`(10^18 : ℚ) = 1 * 10^18` — the exact value of the amount times ten to the
eighteen. -/
theorem transfer_exact_amount_conversion_witness :
    ∃ v : Nat, parseEther "1.0" = some v ∧ (v : ℚ) = 1 * 10 ^ 18 ∧
      demoTransferTx.value = toString v := by
  have d1 : digitsVal ['1'] = 1 := by decide
  have d0 : digitsVal ['0'] = 0 := by decide
  have h1 : decParts "1.0" = some (['1'], ['0']) := by rfl
  have hq : decValue "1.0" = some 1 := by
    unfold decValue
    rw [h1]
    simp [d1, d0]
  exact transfer_exact_amount_conversion stubNet DEFAULT_CHAIN_CONFIGS
    demoState demoTransferParams ['1'] ['0'] 1 demoTransferTx
    (by rfl) (by decide) hq (by rfl)

/-- C9: transfer never rejects locally for insufficient balance.  First,
the whole operation — outcome, final state and event trace — is invariant
under replacing the balance oracle, so no comparison of the queried
balance against the transfer amount is ever made (the query is
informational only).  Second, insufficiency can surface only through the
network: when the gas estimate fails, or the broadcast fails, the failure
is wrapped as `Transfer failed: <cause>` carrying the underlying error
text. -/
theorem transfer_balance_informational
    (env : NetEnv) (registry : ChainRegistry) (s : WalletState)
    (p : TransferParams)
    (f g : String → Except String Nat) :
    (transfer { env with balanceRpc := f } registry s p
      = transfer { env with balanceRpc := g } registry s p) ∧
    (∀ (b0 b1 : ClientBinding) (meta : ChainMetadata) (w : Nat) (m : String),
      p.fromChain ≠ "" → p.toAddress ≠ "" → p.amount ≠ "" →
      isValidAmountString p.amount = true →
      startsWith0x p.toAddress = true → p.toAddress.length = 42 →
      s.bindings s.currentChain = some b0 →
      registry.resolve p.fromChain = some meta →
      s.bindings p.fromChain = some b1 →
      parseEther p.amount = some w →
      env.estimateGas = .error m →
      (transfer env registry s p).1 = .error ("Transfer failed: " ++ m)) ∧
    (∀ (b0 b1 : ClientBinding) (meta : ChainMetadata)
        (w gas pr n : Nat) (st m : String),
      p.fromChain ≠ "" → p.toAddress ≠ "" → p.amount ≠ "" →
      isValidAmountString p.amount = true →
      startsWith0x p.toAddress = true → p.toAddress.length = 42 →
      s.bindings s.currentChain = some b0 →
      registry.resolve p.fromChain = some meta →
      s.bindings p.fromChain = some b1 →
      parseEther p.amount = some w →
      env.estimateGas = .ok gas → env.gasPrice = .ok pr →
      env.txCount = .ok n →
      env.signTx b1.walletClient
        { toAddr := p.toAddress, value := w, callData := p.data.getD "0x",
          gas := gas, gasPrice := pr, nonce := n, chainId := meta.chainId,
          account := s.address } = .ok st →
      env.sendRaw st = .error m →
      (transfer env registry s p).1 = .error ("Transfer failed: " ++ m)) := by
  refine ⟨?_, ?_, ?_⟩
  · rfl
  · intro b0 b1 meta w m h1 h2 h3 h4 h5 h6 hb0 hm hb1 hw hest
    have hgw : getWalletClient s = .ok b0.walletClient := by
      unfold getWalletClient; rw [hb0]
    have hgw2 : getWalletClient (switchChain s p.fromChain)
        = .ok b1.walletClient := by
      unfold getWalletClient switchChain; simp [hb1]
    simp [transfer, h1, h2, h3, h4, h5, h6, hgw, hgw2, hm, hw, hest]
  · intro b0 b1 meta w gas pr n st m h1 h2 h3 h4 h5 h6 hb0 hm hb1 hw
      hest hpr hn hsig hraw
    have hgw : getWalletClient s = .ok b0.walletClient := by
      unfold getWalletClient; rw [hb0]
    have hgw2 : getWalletClient (switchChain s p.fromChain)
        = .ok b1.walletClient := by
      unfold getWalletClient switchChain; simp [hb1]
    simp [transfer, h1, h2, h3, h4, h5, h6, hgw, hgw2, hm, hw, hest,
      hpr, hn, hsig, hraw]

/-- C9 witness: on the demo fixture, the transfer outcome is identical
whether the balance RPC reports a single wei or fails outright, and with a
broadcast backend failing with `insufficient funds for gas` the result is
the wrapped `Transfer failed: insufficient funds for gas`. -/
theorem transfer_balance_informational_witness :
    (transfer { stubNet with balanceRpc := fun _ => .ok 1 }
        DEFAULT_CHAIN_CONFIGS demoState demoTransferParams
      = transfer { stubNet with balanceRpc := fun _ => .error "down" }
        DEFAULT_CHAIN_CONFIGS demoState demoTransferParams) ∧
    (transfer
        { stubNet with
          sendRaw := fun _ => Except.error "insufficient funds for gas" }
        DEFAULT_CHAIN_CONFIGS demoState demoTransferParams).1
      = .error ("Transfer failed: " ++ "insufficient funds for gas") := by
  constructor
  · exact (transfer_balance_informational stubNet DEFAULT_CHAIN_CONFIGS
      demoState demoTransferParams (fun _ => .ok 1)
      (fun _ => .error "down")).1
  · exact (transfer_balance_informational
      { stubNet with
        sendRaw := fun _ => Except.error "insufficient funds for gas" }
      DEFAULT_CHAIN_CONFIGS demoState demoTransferParams
      (fun _ => .ok 1) (fun _ => .ok 1)).2.2
      ⟨2, 3⟩ ⟨22310222, 22310223⟩
      { chainId := 11155111, name := "Sepolia",
        rpcUrl := "https://rpc.sepolia.org",
        currencyName := "Sepolia Ether", currencySymbol := "ETH",
        decimals := 18,
        blockExplorerUrl := "https://sepolia.etherscan.io" }
      (10 ^ 18) 21000 7 1 "signed:22310223" "insufficient funds for gas"
      (by decide) (by decide) (by decide) (by decide) (by decide) (by decide)
      (by decide) (by decide) (by decide) (by rfl) (by rfl) (by rfl) (by rfl)
      (by rfl) (by rfl)

/-- C5: when the requested bridge amount (in smallest units) exceeds the
locally queried source-chain balance, `bridge()` fails with the
insufficient-balance error before any external route request is issued —
the trace contains no route request and no signing, broadcast or route
execution. -/
theorem bridge_insufficient_balance_preflight
    (env : NetEnv) (agg : AggEnv) (registry : ChainRegistry)
    (s : WalletState) (p : BridgeParams)
    (b0 b1 : ClientBinding) (b w : Nat)
    (h1 : p.amount ≠ "")
    (h2 : isValidAmountString p.amount = true)
    (hb0 : s.bindings s.currentChain = some b0)
    (hb1 : s.bindings p.fromChain = some b1)
    (hbal : env.balanceRpc p.fromChain = .ok b)
    (hw : parseEther p.amount = some w)
    (hlt : b < w) :
    (bridge env agg registry s p).1
      = .error ("Insufficient balance. Required: " ++ p.amount ++ " ETH") ∧
    (bridge env agg registry s p).2.2.all (fun e => !e.isRouteRequest) = true ∧
    (bridge env agg registry s p).2.2.all (fun e => !e.isSignOrExec) = true := by
  have hgw : getWalletClient s = .ok b0.walletClient := by
    unfold getWalletClient; rw [hb0]
  have hgb : getWalletBalance (switchChain s p.fromChain) env.balanceRpc
      = some b := by
    unfold getWalletBalance getPublicClient getWalletClient switchChain
    simp [hb1, hbal]
  have hic : insufficientCheck (some b) w = true := by
    simp [insufficientCheck]
    omega
  refine ⟨?_, ?_, ?_⟩ <;>
    simp [bridge, bridgePreTrace, h1, h2, hgw, hgb, hw, hic,
      Ev.isRouteRequest, Ev.isSignOrExec]

/-- C5 witness: bridging 2 ETH with a balance of one wei on the demo
fixture fails with the insufficient-balance error; the trace holds no
route request and no signing or execution event. -/
theorem bridge_insufficient_balance_preflight_witness :
    (bridge poorNet stubAgg DEFAULT_CHAIN_CONFIGS demoState
        demoBridgeParams).1
      = .error ("Insufficient balance. Required: " ++ "2" ++ " ETH") ∧
    (bridge poorNet stubAgg DEFAULT_CHAIN_CONFIGS demoState
        demoBridgeParams).2.2.all (fun e => !e.isRouteRequest) = true ∧
    (bridge poorNet stubAgg DEFAULT_CHAIN_CONFIGS demoState
        demoBridgeParams).2.2.all (fun e => !e.isSignOrExec) = true :=
  bridge_insufficient_balance_preflight poorNet stubAgg DEFAULT_CHAIN_CONFIGS
    demoState demoBridgeParams ⟨2, 3⟩ ⟨16906, 16907⟩ 1 (2 * 10 ^ 18)
    (by decide) (by decide) (by decide) (by decide) (by rfl) (by rfl)
    (by norm_num)

/-- C10: when the source-chain balance query during `bridge()` yields the
`null` sentinel (RPC failure), the bridge throws the insufficient-balance
error before contacting the aggregator, whatever the account's actual
balance is — the `!balance` truthiness check conflates "no data" with
insufficient funds. -/
theorem bridge_null_balance_insufficient
    (env : NetEnv) (agg : AggEnv) (registry : ChainRegistry)
    (s : WalletState) (p : BridgeParams)
    (b0 : ClientBinding) (e : String) (w : Nat)
    (h1 : p.amount ≠ "")
    (h2 : isValidAmountString p.amount = true)
    (hb0 : s.bindings s.currentChain = some b0)
    (hbal : env.balanceRpc p.fromChain = .error e)
    (hw : parseEther p.amount = some w) :
    (bridge env agg registry s p).1
      = .error ("Insufficient balance. Required: " ++ p.amount ++ " ETH") ∧
    (bridge env agg registry s p).2.2.all (fun e => !e.isRouteRequest) = true ∧
    (bridge env agg registry s p).2.2.all (fun e => !e.isSignOrExec) = true := by
  have hgw : getWalletClient s = .ok b0.walletClient := by
    unfold getWalletClient; rw [hb0]
  have hgb : getWalletBalance (switchChain s p.fromChain) env.balanceRpc
      = none := by
    unfold getWalletBalance getPublicClient getWalletClient switchChain
    cases hb : s.bindings p.fromChain <;> simp [hb, hbal]
  have hic : insufficientCheck none w = true := rfl
  refine ⟨?_, ?_, ?_⟩ <;>
    simp [bridge, bridgePreTrace, h1, h2, hgw, hgb, hw, hic,
      Ev.isRouteRequest, Ev.isSignOrExec]

/-- C10 witness: with a failing balance RPC, bridging 2 ETH on the demo
fixture (whatever funds the account really has) fails with the
insufficient-balance error before any route request. -/
theorem bridge_null_balance_insufficient_witness :
    (bridge downNet stubAgg DEFAULT_CHAIN_CONFIGS demoState
        demoBridgeParams).1
      = .error ("Insufficient balance. Required: " ++ "2" ++ " ETH") ∧
    (bridge downNet stubAgg DEFAULT_CHAIN_CONFIGS demoState
        demoBridgeParams).2.2.all (fun e => !e.isRouteRequest) = true ∧
    (bridge downNet stubAgg DEFAULT_CHAIN_CONFIGS demoState
        demoBridgeParams).2.2.all (fun e => !e.isSignOrExec) = true :=
  bridge_null_balance_insufficient downNet stubAgg DEFAULT_CHAIN_CONFIGS
    demoState demoBridgeParams ⟨2, 3⟩ "rpc down" (2 * 10 ^ 18)
    (by decide) (by decide) (by decide) (by rfl) (by rfl)

/-! ### Empty route lists -/

theorem swap_noroutes (env : NetEnv) (agg : AggEnv)
    (registry : ChainRegistry) (s : WalletState) (p : SwapParams)
    (out : Except String Transaction × WalletState × List Ev)
    (hempty : ∀ req, agg.routes req = .ok [])
    (hrun : swap env agg registry s p = out) :
    ((∃ req, Ev.routeRequested req ∈ out.2.2) →
      out.1 = .error "Swap failed: No routes found") ∧
    out.2.2.all (fun e => !e.isSignOrExec) = true := by
  unfold swap at hrun
  repeat' split at hrun
  all_goals subst hrun
  all_goals simp_all [Ev.isSignOrExec]

theorem bridge_noroutes (env : NetEnv) (agg : AggEnv)
    (registry : ChainRegistry) (s : WalletState) (p : BridgeParams)
    (out : Except String Transaction × WalletState × List Ev)
    (hempty : ∀ req, agg.routes req = .ok [])
    (hrun : bridge env agg registry s p = out) :
    ((∃ req, Ev.routeRequested req ∈ out.2.2) →
      out.1 =
        .error "Bridge failed: No bridge routes found. The requested bridge path might not be supported.") ∧
    out.2.2.all (fun e => !e.isSignOrExec) = true := by
  unfold bridge at hrun
  repeat' split at hrun
  all_goals subst hrun
  all_goals simp_all [Ev.isSignOrExec, bridgePreTrace]

/-- C6: whenever the aggregator answers every route request with an empty
route list, a swap or bridge that reached the route-request step fails
with its no-routes error, and the whole run performs no signing, no
broadcast and no route execution. -/
theorem noRouteFound_no_execution (env : NetEnv) (agg : AggEnv)
    (registry : ChainRegistry) (s : WalletState)
    (ps : SwapParams) (pb : BridgeParams)
    (hempty : ∀ req, agg.routes req = .ok []) :
    ((∃ req, Ev.routeRequested req ∈ (swap env agg registry s ps).2.2) →
      (swap env agg registry s ps).1
        = .error "Swap failed: No routes found") ∧
    (swap env agg registry s ps).2.2.all (fun e => !e.isSignOrExec) = true ∧
    ((∃ req, Ev.routeRequested req ∈ (bridge env agg registry s pb).2.2) →
      (bridge env agg registry s pb).1 =
        .error "Bridge failed: No bridge routes found. The requested bridge path might not be supported.") ∧
    (bridge env agg registry s pb).2.2.all (fun e => !e.isSignOrExec) = true := by
  obtain ⟨hs1, hs2⟩ := swap_noroutes env agg registry s ps _ hempty rfl
  obtain ⟨hb1, hb2⟩ := bridge_noroutes env agg registry s pb _ hempty rfl
  exact ⟨hs1, hs2, hb1, hb2⟩

/-- C6 witness: on the demo fixture with the routeless stub aggregator,
both the swap and the bridge issue a route request, fail with their
no-routes error, and never sign, broadcast or execute a route. -/
theorem noRouteFound_no_execution_witness :
    (swap stubNet emptyAgg DEFAULT_CHAIN_CONFIGS demoState
        demoSwapParams).1 = .error "Swap failed: No routes found" ∧
    (swap stubNet emptyAgg DEFAULT_CHAIN_CONFIGS demoState
        demoSwapParams).2.2.all (fun e => !e.isSignOrExec) = true ∧
    (bridge stubNet emptyAgg DEFAULT_CHAIN_CONFIGS demoState
        demoBridgeParams).1 =
      .error "Bridge failed: No bridge routes found. The requested bridge path might not be supported." ∧
    (bridge stubNet emptyAgg DEFAULT_CHAIN_CONFIGS demoState
        demoBridgeParams).2.2.all (fun e => !e.isSignOrExec) = true := by
  obtain ⟨h1, h2, h3, h4⟩ := noRouteFound_no_execution stubNet emptyAgg
    DEFAULT_CHAIN_CONFIGS demoState demoSwapParams demoBridgeParams
    (fun _ => rfl)
  exact ⟨h1 ⟨_, .tail _ (.tail _ (.head _))⟩, h2,
    h3 ⟨_, .tail _ (.tail _ (.tail _ (.head _)))⟩, h4⟩

/-! ### Slippage validation -/

theorem runAggScript_no_routeReq (r : ChainRegistry) (cmds : List AggCmd)
    (s : WalletState) (req : RouteReq) :
    Ev.routeRequested req ∉ (runAggScript r s cmds).2.1 := by
  induction cmds generalizing s with
  | nil => intro h; simp [runAggScript] at h
  | cons cmd rest ih =>
    intro h
    cases cmd with
    | useCurrent =>
      simp only [runAggScript] at h
      split at h
      · simp at h
      · simp only [List.mem_cons] at h
        rcases h with h | h | h
        · exact absurd h (by simp)
        · exact absurd h (by simp)
        · exact ih s h
    | switchTo cid =>
      simp only [runAggScript] at h
      split at h
      · simp at h
      · split at h
        · simp at h
        · simp only [List.mem_cons] at h
          rcases h with h | h | h | h
          · exact absurd h (by simp)
          · exact absurd h (by simp)
          · exact absurd h (by simp)
          · exact ih _ h

theorem executeRouteModel_no_routeReq (r : ChainRegistry) (agg : AggEnv)
    (s : WalletState) (req : RouteReq) :
    Ev.routeRequested req ∉ (executeRouteModel r agg s).2.1 := by
  intro h
  unfold executeRouteModel at h
  simp only [] at h
  split at h <;>
    (simp only [List.mem_cons] at h
     rcases h with h | h
     · exact absurd h (by simp)
     · exact runAggScript_no_routeReq r agg.script s req h)

/-- C4 (counterexample): slippage `0` lies outside the valid range
`[1,500]`, yet the swap is not rejected with the InvalidParameter error —
the truthiness guard `params.slippage && ...` skips the range check for
the falsy value `0` — and a route request is issued to the aggregator (the
operation then fails only because this stub aggregator has no routes). -/
theorem swap_slippage_zero_counterexample :
    ((0 : Int) < 1) ∧
    (swap stubNet emptyAgg DEFAULT_CHAIN_CONFIGS demoState
        { demoSwapParams with slippage := some 0 }).1
      = .error "Swap failed: No routes found" ∧
    (swap stubNet emptyAgg DEFAULT_CHAIN_CONFIGS demoState
        { demoSwapParams with slippage := some 0 }).2.2.any
          (fun e => e.isRouteRequest) = true :=
  ⟨by decide, by rfl, by rfl⟩

/-- C4 (amended): a present nonzero slippage outside [1,500] basis points
makes `swap()` reject with the InvalidParameter error before any route
request (the run ends immediately, with an empty event trace); an absent
slippage — and likewise the falsy value 0, which the truthiness guard
skips — defaults to 50, so any route request that is issued carries the
decimal slippage `50/10000`. -/
theorem swap_slippage_validation
    (env : NetEnv) (agg : AggEnv) (registry : ChainRegistry)
    (s : WalletState) (p : SwapParams) :
    (∀ v : Int, p.slippage = some v → v ≠ 0 → (v < 1 ∨ 500 < v) →
      (p.chain = "ethereum" ∨ p.chain = "base" ∨ p.chain = "sepolia") →
      p.fromToken ≠ "" → p.toToken ≠ "" → p.amount ≠ "" →
      swap env agg registry s p
        = (.error "Slippage must be between 1 and 500 basis points", s, [])) ∧
    ((p.slippage = none ∨ p.slippage = some 0) →
      ∀ req, Ev.routeRequested req ∈ (swap env agg registry s p).2.2 →
        req.slippage = some ((50 : ℚ) / 10000)) := by
  constructor
  · intro v hsl hnz hrange hch hft htt ha
    have hrej : slippageRejected p.slippage = true := by
      rw [hsl]
      unfold slippageRejected
      rcases hrange with h | h <;> simp [hnz, h]
    rcases hch with h | h | h <;>
      simp [swap, h, hft, htt, ha, hrej]
  · intro hd req hmem
    unfold swap at hmem
    repeat' split at hmem
    all_goals (try (simp at hmem))
    all_goals
      first
        | (rcases hmem with hmem | hmem
           · subst hmem
             rcases hd with h | h <;>
               simp [swapRouteReq, effectiveSlippageBp, h]
           · exact absurd hmem
               (executeRouteModel_no_routeReq registry agg _ req))
        | (subst hmem
           rcases hd with h | h <;>
             simp [swapRouteReq, effectiveSlippageBp, h])

/-- C4 witness: slippage 600 on the demo fixture is rejected before any
route request, and with slippage absent the single route request issued
carries the defaulted decimal slippage `50/10000`. -/
theorem swap_slippage_validation_witness :
    (swap stubNet emptyAgg DEFAULT_CHAIN_CONFIGS demoState
        { demoSwapParams with slippage := some 600 }
      = (.error "Slippage must be between 1 and 500 basis points",
          demoState, [])) ∧
    (∃ req, Ev.routeRequested req ∈
        (swap stubNet emptyAgg DEFAULT_CHAIN_CONFIGS demoState
          demoSwapParams).2.2 ∧
      req.slippage = some ((50 : ℚ) / 10000)) := by
  constructor
  · exact (swap_slippage_validation stubNet emptyAgg DEFAULT_CHAIN_CONFIGS
      demoState { demoSwapParams with slippage := some 600 }).1 600
      rfl (by decide) (by norm_num) (Or.inr (Or.inl rfl))
      (by decide) (by decide) (by decide)
  · refine ⟨_, .tail _ (.tail _ (.head _)), ?_⟩
    exact (swap_slippage_validation stubNet emptyAgg DEFAULT_CHAIN_CONFIGS
      demoState demoSwapParams).2 (Or.inl rfl) _
      (.tail _ (.tail _ (.head _)))

/-! ### Signing against the source chain -/

theorem getWalletClient_switch_ok {s : WalletState} {name : String} {c : Nat}
    (h : getWalletClient (switchChain s name) = .ok c) :
    (s.bindings name).map (·.walletClient) = some c :=
  getWalletClient_ok h

theorem switchBefore_of_nosign (src : String) (t : List Ev)
    (h : ∀ ch c, Ev.signed ch c ∉ t) : switchBeforeSigning src t := by
  intro n ch c hn
  exact absurd (List.get?_mem hn) (h ch c)

theorem switchBefore_cons2 (src : String) (e0 : Ev) (rest : List Ev)
    (h0 : ∀ ch c, e0 ≠ Ev.signed ch c) :
    switchBeforeSigning src (e0 :: Ev.switched src :: rest) := by
  intro n ch c hn
  match n with
  | 0 => exact absurd (by simpa using hn) (h0 ch c)
  | 1 => simp at hn
  | k + 2 => exact ⟨1, by omega, rfl⟩

theorem executeRouteModel_signs (r : ChainRegistry) (agg : AggEnv)
    (s : WalletState) :
    signsOnlyWith s (executeRouteModel r agg s).2.1 := by
  intro ch c h
  unfold executeRouteModel at h
  simp only [] at h
  split at h <;>
    (simp only [List.mem_cons] at h
     rcases h with h | h
     · exact absurd h (by simp)
     · exact runAggScript_signs r agg.script s ch c h)

theorem executeRouteModel_noswitch (r : ChainRegistry) (agg : AggEnv)
    (s : WalletState)
    (hns : ∀ cmd ∈ agg.script, cmd.isSwitch = false) :
    ∀ ch c, Ev.signed ch c ∈ (executeRouteModel r agg s).2.1 →
      ch = s.currentChain := by
  intro ch c h
  unfold executeRouteModel at h
  simp only [] at h
  split at h <;>
    (simp only [List.mem_cons] at h
     rcases h with h | h
     · exact absurd h (by simp)
     · exact runAggScript_noswitch r agg.script s hns ch c h)

theorem transfer_run_signed (env : NetEnv) (registry : ChainRegistry)
    (s : WalletState) (p : TransferParams)
    (out : Except String Transaction × WalletState × List Ev)
    (hrun : transfer env registry s p = out) :
    (∀ ch c, Ev.signed ch c ∈ out.2.2 →
      ch = p.fromChain ∧
      (s.bindings p.fromChain).map (·.walletClient) = some c) ∧
    switchBeforeSigning p.fromChain out.2.2 := by
  unfold transfer at hrun
  simp only [] at hrun
  repeat' split at hrun
  all_goals subst hrun
  all_goals constructor
  all_goals
    first
      | (intro ch c h; simp at h; done)
      | (intro ch c h
         simp at h
         obtain ⟨rfl, rfl⟩ := h
         exact ⟨rfl, getWalletClient_switch_ok (by assumption)⟩)
      | (simp only [List.cons_append, List.nil_append, List.append_assoc]
         apply switchBefore_cons2
         intro ch c
         simp)
      | (apply switchBefore_of_nosign
         intro ch c hc
         simp at hc)

theorem swap_run_signed (env : NetEnv) (agg : AggEnv)
    (registry : ChainRegistry) (s : WalletState) (p : SwapParams)
    (out : Except String Transaction × WalletState × List Ev)
    (hrun : swap env agg registry s p = out) :
    signsOnlyWith s out.2.2 ∧
    switchBeforeSigning p.chain out.2.2 ∧
    ((∀ cmd ∈ agg.script, cmd.isSwitch = false) →
      ∀ ch c, Ev.signed ch c ∈ out.2.2 → ch = p.chain) := by
  unfold swap at hrun
  repeat' split at hrun
  all_goals subst hrun
  all_goals refine ⟨?_, ?_, ?_⟩
  all_goals
    first
      | (intro ch c h; simp at h; done)
      | (intro hns ch c h; simp at h; done)
      | (intro ch c h
         simp at h
         exact executeRouteModel_signs registry agg
           (switchChain s p.chain) ch c h)
      | (intro hns ch c h
         simp at h
         exact executeRouteModel_noswitch registry agg
           (switchChain s p.chain) hns ch c h)
      | (simp only [List.cons_append, List.nil_append, List.append_assoc]
         apply switchBefore_cons2
         intro ch c
         simp)

theorem bridge_run_signed (env : NetEnv) (agg : AggEnv)
    (registry : ChainRegistry) (s : WalletState) (p : BridgeParams)
    (out : Except String Transaction × WalletState × List Ev)
    (hrun : bridge env agg registry s p = out) :
    signsOnlyWith s out.2.2 ∧
    switchBeforeSigning p.fromChain out.2.2 ∧
    ((∀ cmd ∈ agg.script, cmd.isSwitch = false) →
      ∀ ch c, Ev.signed ch c ∈ out.2.2 → ch = p.fromChain) := by
  unfold bridge at hrun
  repeat' split at hrun
  all_goals subst hrun
  all_goals refine ⟨?_, ?_, ?_⟩
  all_goals
    first
      | (intro ch c h; simp [bridgePreTrace] at h; done)
      | (intro hns ch c h; simp [bridgePreTrace] at h; done)
      | (intro ch c h
         simp [bridgePreTrace] at h
         exact executeRouteModel_signs registry agg
           (switchChain s p.fromChain) ch c h)
      | (intro hns ch c h
         simp [bridgePreTrace] at h
         exact executeRouteModel_noswitch registry agg
           (switchChain s p.fromChain) hns ch c h)
      | (simp only [bridgePreTrace, List.cons_append, List.nil_append,
           List.append_assoc]
         apply switchBefore_cons2
         intro ch c
         simp)

/-- C1: signing always happens against the source chain's signing client.
For a direct transfer, every signing event in the trace signs on
`params.fromChain` with exactly the wallet client the session's bindings
associate to that chain.  For swap and bridge, every signing the
aggregator performs through the registered callbacks uses the client bound
to the chain that is current at that moment (the `bindings[currentChain]`
invariant), and when the aggregator performs no mid-route chain switch all
signing is on the operation's source chain (`params.chain` for swap,
`params.fromChain` for bridge).  In all three operations the switch of
`currentChain` to the source chain precedes, position-wise, every signing
event in the trace. -/
theorem signing_on_source_chain
    (env : NetEnv) (agg : AggEnv) (registry : ChainRegistry)
    (s : WalletState) (pt : TransferParams) (ps : SwapParams)
    (pb : BridgeParams) :
    ((∀ ch c, Ev.signed ch c ∈ (transfer env registry s pt).2.2 →
        ch = pt.fromChain ∧
        (s.bindings pt.fromChain).map (·.walletClient) = some c) ∧
      switchBeforeSigning pt.fromChain (transfer env registry s pt).2.2) ∧
    (signsOnlyWith s (swap env agg registry s ps).2.2 ∧
      switchBeforeSigning ps.chain (swap env agg registry s ps).2.2 ∧
      ((∀ cmd ∈ agg.script, cmd.isSwitch = false) →
        ∀ ch c, Ev.signed ch c ∈ (swap env agg registry s ps).2.2 →
          ch = ps.chain)) ∧
    (signsOnlyWith s (bridge env agg registry s pb).2.2 ∧
      switchBeforeSigning pb.fromChain (bridge env agg registry s pb).2.2 ∧
      ((∀ cmd ∈ agg.script, cmd.isSwitch = false) →
        ∀ ch c, Ev.signed ch c ∈ (bridge env agg registry s pb).2.2 →
          ch = pb.fromChain)) :=
  ⟨transfer_run_signed env registry s pt _ rfl,
   swap_run_signed env agg registry s ps _ rfl,
   bridge_run_signed env agg registry s pb _ rfl⟩

/-- C1 witness: in the demo transfer the single signing event (trace index
5) signs on sepolia with sepolia's bound wallet client 22310223, and the
switch to sepolia sits earlier in the trace (index 1); in the demo swap
the aggregator's signing is on base with base's bound client. -/
theorem signing_on_source_chain_witness :
    ((demoState.bindings "sepolia").map (·.walletClient) = some 22310223) ∧
    (∃ m, m < 5 ∧ (transfer stubNet DEFAULT_CHAIN_CONFIGS demoState
        demoTransferParams).2.2.get? m = some (Ev.switched "sepolia")) ∧
    ((demoState.bindings "base").map (·.walletClient) = some 16907) := by
  refine ⟨?_, ?_, ?_⟩
  · exact ((signing_on_source_chain stubNet stubAgg DEFAULT_CHAIN_CONFIGS
      demoState demoTransferParams demoSwapParams demoBridgeParams).1.1
      "sepolia" 22310223 (by decide)).2
  · exact (signing_on_source_chain stubNet stubAgg DEFAULT_CHAIN_CONFIGS
      demoState demoTransferParams demoSwapParams demoBridgeParams).1.2
      5 "sepolia" 22310223 (by decide)
  · exact (signing_on_source_chain stubNet stubAgg DEFAULT_CHAIN_CONFIGS
      demoState demoTransferParams demoSwapParams demoBridgeParams).2.1.1
      "base" 16907 (by decide)

end EvmPlugin
